import Mathlib

/-!
Verification of the irrigation decision engine and the dashboard chat widget.

The engine (FeatureVector validation, RuleEvaluator, ClassifierAdapter,
DecisionArbiter) is modelled from the specification, since only its
documentation and its UI callers ship in this repository.  The chat widget
(`AssistantBubble.jsx`) is embedded directly from the source.
Real-number quantities are modelled as rationals; a possibly-NaN input
number is modelled as `Option ℚ` with `none` standing for NaN.
-/

/-- Modelled from the spec: soil type enumeration (spec §3). -/
inductive SoilType
  | clay
  | loam
  | sandy
deriving DecidableEq, Repr

/-- Modelled from the spec: crop stage enumeration (spec §3). -/
inductive CropStage
  | germination
  | vegetative
  | flowering
  | harvest
deriving DecidableEq, Repr

/-- Modelled from the spec: severity enumeration of a rule decision (spec §3). -/
inductive Severity
  | none
  | advisory
  | warning
  | critical
deriving DecidableEq, Repr

/-- Modelled from the spec: a validated feature vector (spec §3), the
immutable snapshot of one field's conditions. -/
structure FeatureVector where
  soil_type : SoilType
  crop : String
  crop_stage : CropStage
  moisture_pct : ℚ
  temperature_c : ℚ
  rainfall_forecast_mm : ℚ
  rainfall_probability_pct : ℚ
  nitrogen : ℚ
  phosphorus : ℚ
  potassium : ℚ
  ph : ℚ
deriving DecidableEq, Repr

/-- Modelled from the spec: raw (unvalidated) numeric inputs to FeatureVector
construction; `none` models a NaN float. -/
structure RawFeatureVector where
  soil_type : SoilType
  crop : String
  crop_stage : CropStage
  moisture_pct : Option ℚ
  temperature_c : Option ℚ
  rainfall_forecast_mm : Option ℚ
  rainfall_probability_pct : Option ℚ
  nitrogen : Option ℚ
  phosphorus : Option ℚ
  potassium : Option ℚ
  ph : Option ℚ
deriving DecidableEq, Repr

/-- Modelled from the spec: validation failure for FeatureVector construction
(spec §7), carrying the offending field's name. -/
inductive ValidationError
  | nanField (field : String)
  | outOfRange (field : String)
deriving DecidableEq, Repr

/-- Modelled from the spec: FeatureVector construction (spec §3, §7).  Each
field is checked against its declared domain; a NaN or out-of-domain input
fails validation (it is not silently clamped), so no invalid FeatureVector
ever reaches the evaluator. -/
def mkFeatureVector (r : RawFeatureVector) : Except ValidationError FeatureVector :=
  match r.moisture_pct with
  | Option.none => Except.error (ValidationError.nanField "moisture_pct")
  | Option.some m =>
    if m < 0 ∨ 100 < m then Except.error (ValidationError.outOfRange "moisture_pct") else
    match r.temperature_c with
    | Option.none => Except.error (ValidationError.nanField "temperature_c")
    | Option.some t =>
      match r.rainfall_forecast_mm with
      | Option.none => Except.error (ValidationError.nanField "rainfall_forecast_mm")
      | Option.some rf =>
        if rf < 0 then Except.error (ValidationError.outOfRange "rainfall_forecast_mm") else
        match r.rainfall_probability_pct with
        | Option.none => Except.error (ValidationError.nanField "rainfall_probability_pct")
        | Option.some rp =>
          if rp < 0 ∨ 100 < rp then
            Except.error (ValidationError.outOfRange "rainfall_probability_pct") else
          match r.nitrogen, r.phosphorus, r.potassium, r.ph with
          | Option.none, _, _, _ => Except.error (ValidationError.nanField "nitrogen")
          | _, Option.none, _, _ => Except.error (ValidationError.nanField "phosphorus")
          | _, _, Option.none, _ => Except.error (ValidationError.nanField "potassium")
          | _, _, _, Option.none => Except.error (ValidationError.nanField "ph")
          | Option.some n, Option.some p, Option.some k, Option.some phv =>
            if n < 0 then Except.error (ValidationError.outOfRange "nitrogen") else
            if p < 0 then Except.error (ValidationError.outOfRange "phosphorus") else
            if k < 0 then Except.error (ValidationError.outOfRange "potassium") else
            if phv < 0 ∨ 14 < phv then Except.error (ValidationError.outOfRange "ph") else
            Except.ok
              { soil_type := r.soil_type, crop := r.crop, crop_stage := r.crop_stage
                moisture_pct := m, temperature_c := t, rainfall_forecast_mm := rf
                rainfall_probability_pct := rp, nitrogen := n, phosphorus := p
                potassium := k, ph := phv }

/-- Modelled from the spec: the output of the RuleEvaluator (spec §3). -/
structure RuleDecision where
  irrigation_required : Bool
  water_mm : ℚ
  duration_hours : ℚ
  reasons : List String
  severity : Severity
deriving DecidableEq, Repr

/-- Modelled from the spec: the agronomic tables the rule evaluator consults
(spec §4.1): per-crop/per-stage base water requirement and per-soil-type
delivery rate. -/
structure RuleConfig where
  base_requirement : String → CropStage → ℚ
  delivery_rate : SoilType → ℚ

/-- Modelled from the spec: temperature multiplier of the water requirement
(spec §4.1): greater than 1 when temperature exceeds 30 °C, capped at 1.5×. -/
def tempMultiplier (t : ℚ) : ℚ :=
  if 30 < t then min (1 + (t - 30) / 10) (3 / 2) else 1

/-- Modelled from the spec: a concrete instantiation of the agronomic tables
consistent with the README's Scenario 1 (rice, clay, 25 % moisture, 32 °C →
45 mm over 4.5 h). -/
def defaultRuleConfig : RuleConfig where
  base_requirement := fun _ _ => 225
  delivery_rate := fun s =>
    match s with
    | SoilType.clay => 10
    | SoilType.loam => 25 / 2
    | SoilType.sandy => 15

/-- Modelled from the spec: the RuleEvaluator (spec §4.1).  Ordered
precedence: heavy-rain forecast short-circuits everything; then dry
(moisture < 30) computes a water volume from the deficit and temperature;
then wet (moisture > 60) warns; otherwise the optimal branch.  A rainfall
probability between 20 % and 40 % reduces the duration (never below zero)
and accumulates a secondary reason. -/
def RuleEvaluator.evaluate (cfg : RuleConfig) (fv : FeatureVector) : RuleDecision :=
  if 40 < fv.rainfall_forecast_mm then
    { irrigation_required := false, water_mm := 0, duration_hours := 0
      reasons := ["heavy rain forecast — irrigation delayed"]
      severity := Severity.advisory }
  else
    let d : RuleDecision :=
      if fv.moisture_pct < 30 then
        let base := cfg.base_requirement fv.crop fv.crop_stage
        let deficit := (30 - fv.moisture_pct) / 30
        let w := max (base * deficit * tempMultiplier fv.temperature_c) 0
        { irrigation_required := true, water_mm := w
          duration_hours := w / cfg.delivery_rate fv.soil_type
          reasons := ["moisture " ++ toString fv.moisture_pct ++
            "% below optimal at temperature " ++ toString fv.temperature_c ++ "°C"]
          severity := Severity.critical }
      else if 60 < fv.moisture_pct then
        { irrigation_required := false, water_mm := 0, duration_hours := 0
          reasons := ["moisture above optimal — risk of over-irrigation/root rot"]
          severity := Severity.warning }
      else
        { irrigation_required := false, water_mm := 0, duration_hours := 0
          reasons := ["moisture within optimal range."]
          severity := Severity.none }
    if 20 ≤ fv.rainfall_probability_pct ∧ fv.rainfall_probability_pct ≤ 40 then
      { d with
          duration_hours := max (d.duration_hours * (1 - fv.rainfall_probability_pct / 100)) 0
          reasons := d.reasons ++ ["rain probability reduces irrigation duration"] }
    else d

/-- Modelled from the spec: the injected prediction capability (spec §6):
a probability function over the encoded features and a fixed
feature-importance table. -/
structure PredictionCapability where
  predict_proba : List ℚ → ℚ
  feature_importances : List (String × ℚ)

/-- Modelled from the spec: configuration error of the classifier path
(spec §7): capability absent, or probability outside [0,1]. -/
inductive ConfigurationError
  | missingCapability
  | probabilityOutOfRange (p : ℚ)
deriving DecidableEq, Repr

/-- Modelled from the spec: the output of the ClassifierAdapter (spec §3). -/
structure ClassifierResult where
  irrigation_required : Bool
  confidence : ℚ
  probability_yes : ℚ
  top_factors : List (String × ℚ)
deriving DecidableEq, Repr

/-- Modelled from the spec: the adapter's configuration (spec §4.2): the
injected capability (possibly absent) plus the per-feature normalization
parameters (mean, scale) fixed at training time. -/
structure AdapterConfig where
  capability : Option PredictionCapability
  norms : List (ℚ × ℚ)

/-- Modelled from the spec: the fixed, versioned integer encoding of
soil_type (DASHBOARD_README: clay→0, loam→1, sandy→2). -/
def soilCode (s : SoilType) : ℚ :=
  match s with
  | SoilType.clay => 0
  | SoilType.loam => 1
  | SoilType.sandy => 2

/-- Modelled from the spec: the fixed, versioned integer encoding of
crop_stage (DASHBOARD_README: germination→0, vegetative→1, …). -/
def stageCode (s : CropStage) : ℚ :=
  match s with
  | CropStage.germination => 0
  | CropStage.vegetative => 1
  | CropStage.flowering => 2
  | CropStage.harvest => 3

/-- Modelled from the spec: numeric feature encoding in the order of the
documented predict_irrigation signature (DASHBOARD_README). -/
def encodeFeatures (fv : FeatureVector) : List ℚ :=
  [soilCode fv.soil_type, stageCode fv.crop_stage, fv.nitrogen, fv.phosphorus,
   fv.potassium, fv.ph, fv.moisture_pct, fv.temperature_c,
   fv.rainfall_probability_pct]

/-- Modelled from the spec: apply the pre-computed mean/scale normalization
parameters to the encoded features (spec §4.2). -/
def normalizeFeatures (norms : List (ℚ × ℚ)) (xs : List ℚ) : List ℚ :=
  (xs.zip norms).map (fun p => (p.1 - p.2.1) / p.2.2)

/-- Relation ordering importance factors by descending weight; with a stable
sort, ties keep feature declaration order. -/
def byWeightDesc (a b : String × ℚ) : Prop := b.2 ≤ a.2

instance : DecidableRel byWeightDesc := fun a b =>
  inferInstanceAs (Decidable (b.2 ≤ a.2))

instance : IsTotal (String × ℚ) byWeightDesc := ⟨fun a b => le_total b.2 a.2⟩

instance : IsTrans (String × ℚ) byWeightDesc :=
  ⟨fun _ _ _ hab hbc => le_trans hbc hab⟩

/-- Sum of the importance weights of a factor list. -/
def sumWeights (l : List (String × ℚ)) : ℚ := (l.map Prod.snd).sum

/-- Modelled from the spec: the ClassifierAdapter (spec §4.2).  Fails with
ConfigurationError when the injected capability is absent or returns a
probability outside [0,1]; otherwise confidence = max(p, 1-p) and
top_factors are the model's importances stably sorted by descending weight,
truncated to 3. -/
def ClassifierAdapter.predict (cfg : AdapterConfig) (fv : FeatureVector) :
    Except ConfigurationError ClassifierResult :=
  match cfg.capability with
  | Option.none => Except.error ConfigurationError.missingCapability
  | Option.some cap =>
    let p := cap.predict_proba (normalizeFeatures cfg.norms (encodeFeatures fv))
    if p < 0 ∨ 1 < p then Except.error (ConfigurationError.probabilityOutOfRange p)
    else
      Except.ok
        { irrigation_required := decide ((1 : ℚ) / 2 ≤ p)
          confidence := max p (1 - p)
          probability_yes := p
          top_factors := (List.insertionSort byWeightDesc cap.feature_importances).take 3 }

/-- Modelled from the spec: agreement enumeration of the final
recommendation (spec §3). -/
inductive Agreement
  | both_agree
  | rule_only
  | model_only
  | disagreement_resolved
deriving DecidableEq, Repr

/-- Modelled from the spec: source enumeration of the final recommendation
(spec §3). -/
inductive Source
  | rule
  | model
  | hybrid
deriving DecidableEq, Repr

/-- Modelled from the spec: the final recommendation (spec §3). -/
structure Recommendation where
  irrigation_required : Bool
  water_mm : ℚ
  duration_hours : ℚ
  confidence : ℚ
  agreement : Agreement
  explanation : List String
  source : Source
deriving DecidableEq, Repr

/-- Modelled from the spec: the DecisionArbiter (spec §4.3).  Absent
classifier mirrors the rule decision; agreement blends confidence;
disagreement resolves by safety-first precedence with confidence capped
at 0.6. -/
def DecisionArbiter.arbitrate (rd : RuleDecision) (cr : Option ClassifierResult) :
    Recommendation :=
  match cr with
  | Option.none =>
    { irrigation_required := rd.irrigation_required, water_mm := rd.water_mm
      duration_hours := rd.duration_hours
      confidence :=
        if rd.severity = Severity.critical ∨ rd.severity = Severity.advisory then 1
        else 7 / 10
      agreement := Agreement.rule_only, explanation := rd.reasons
      source := Source.rule }
  | Option.some c =>
    if rd.irrigation_required = c.irrigation_required then
      { irrigation_required := rd.irrigation_required, water_mm := rd.water_mm
        duration_hours := rd.duration_hours
        confidence := (1 + c.confidence) / 2
        agreement := Agreement.both_agree
        explanation := rd.reasons ++ (c.top_factors.map Prod.fst)
        source := Source.hybrid }
    else
      { irrigation_required :=
          if rd.irrigation_required then true
          else if 4 / 5 ≤ c.confidence then true
          else rd.irrigation_required
        water_mm := rd.water_mm, duration_hours := rd.duration_hours
        confidence := min ((1 + c.confidence) / 2) (3 / 5)
        agreement := Agreement.disagreement_resolved
        explanation := rd.reasons ++
          ["rule and classifier disagree — resolved by safety-first precedence"]
        source := Source.hybrid }

/-- Modelled from the spec: the engine pipeline (spec §2, §7).  The caller
either supplies a classifier configuration — in which case a runtime
ConfigurationError aborts the call and is never converted into the
"absent" branch — or explicitly supplies none, the degraded rule-only
mode. -/
def runEngine (rcfg : RuleConfig) (classifier : Option AdapterConfig)
    (fv : FeatureVector) : Except ConfigurationError Recommendation :=
  match classifier with
  | Option.none => Except.ok (DecisionArbiter.arbitrate (RuleEvaluator.evaluate rcfg fv) Option.none)
  | Option.some acfg =>
    match ClassifierAdapter.predict acfg fv with
    | Except.error e => Except.error e
    | Except.ok cr =>
      Except.ok (DecisionArbiter.arbitrate (RuleEvaluator.evaluate rcfg fv) (Option.some cr))

/-- Message role in the chat widget (source: AssistantBubble.jsx). -/
inductive MsgType
  | user
  | bot
deriving DecidableEq, Repr

/-- A chat message of AssistantBubble.jsx: id, role, text, timestamp. -/
structure Message where
  id : Nat
  type : MsgType
  text : String
  timestamp : String
deriving DecidableEq, Repr

/-- The component state touched by handleSendMessage in AssistantBubble.jsx:
the messages list and the input box value. -/
structure ChatState where
  messages : List Message
  inputValue : String
deriving DecidableEq, Repr

/-- JavaScript's String.prototype.trim as used by AssistantBubble.jsx:
strip leading and trailing whitespace (computable list-based model). -/
def jsTrim (t : String) : String :=
  String.mk (((t.data.dropWhile Char.isWhitespace).reverse.dropWhile
    Char.isWhitespace).reverse)

/-- The bot reply template of AssistantBubble.jsx (line 51). -/
def botReplyText (t : String) : String :=
  "I received your request about \"" ++ t ++ "\". Let me help you with that!"

/-- handleSendMessage of AssistantBubble.jsx (lines 33–56): an empty trimmed
input returns unchanged with no reply scheduled; otherwise the trimmed user
message is appended, the input cleared, and a bot reply on the trimmed text
is scheduled (returned as `some`).  `nowId`/`nowTs` stand for Date.now()
and the ISO timestamp at send time. -/
def handleSendMessage (nowId : Nat) (nowTs : String) (text : String)
    (s : ChatState) : ChatState × Option String :=
  if jsTrim text = "" then (s, Option.none)
  else
    ({ messages := s.messages ++
        [{ id := nowId, type := MsgType.user, text := jsTrim text, timestamp := nowTs }]
       inputValue := "" },
     Option.some (jsTrim text))

/-- The scheduled bot response of AssistantBubble.jsx (lines 47–55):
appends the bot message built from the pending trimmed text.
`replyId`/`replyTs` stand for Date.now()+1 and the timestamp at reply
time. -/
def deliverBotReply (replyId : Nat) (replyTs : String) (pending : String)
    (s : ChatState) : ChatState :=
  { s with messages := s.messages ++
      [{ id := replyId, type := MsgType.bot, text := botReplyText pending
         timestamp := replyTs }] }

/-- The send button of AssistantBubble.jsx (line 171) is disabled exactly
when the trimmed input value is empty. -/
def sendButtonDisabled (s : ChatState) : Bool := jsTrim s.inputValue = ""

section RuleEvaluatorFacts

/-- The water volume computed in the dry branch: base requirement scaled by
the linear moisture deficit and the temperature multiplier, clamped at 0. -/
lemma evaluate_water_mm_dry (cfg : RuleConfig) (fv : FeatureVector)
    (hr : ¬ 40 < fv.rainfall_forecast_mm) (hm : fv.moisture_pct < 30) :
    (RuleEvaluator.evaluate cfg fv).water_mm =
      max (cfg.base_requirement fv.crop fv.crop_stage *
        ((30 - fv.moisture_pct) / 30) * tempMultiplier fv.temperature_c) 0 := by
  simp only [RuleEvaluator.evaluate, if_neg hr, if_pos hm]
  split <;> rfl

/-- The temperature multiplier is nonnegative. -/
lemma tempMultiplier_nonneg (t : ℚ) : 0 ≤ tempMultiplier t := by
  unfold tempMultiplier
  split
  · next h =>
    have h1 : (0 : ℚ) ≤ 1 + (t - 30) / 10 := by linarith
    have h2 : (0 : ℚ) ≤ 3 / 2 := by norm_num
    exact le_min h1 h2
  · norm_num

end RuleEvaluatorFacts

/-- C1: a validated FeatureVector with rainfall_forecast_mm > 40 makes
RuleEvaluator.evaluate return no-irrigation with severity advisory and the
single reason "heavy rain forecast — irrigation delayed", regardless of
moisture: the heavy-rain rule short-circuits all moisture-based logic. -/
theorem C1_heavy_rain_short_circuits (cfg : RuleConfig) (fv : FeatureVector)
    (h : 40 < fv.rainfall_forecast_mm) :
    (RuleEvaluator.evaluate cfg fv).irrigation_required = false ∧
    (RuleEvaluator.evaluate cfg fv).severity = Severity.advisory ∧
    (RuleEvaluator.evaluate cfg fv).reasons =
      ["heavy rain forecast — irrigation delayed"] := by
  simp [RuleEvaluator.evaluate, if_pos h]

/-- A concrete feature vector with a heavy rain forecast and very low
moisture. -/
def fvHeavyRain : FeatureVector :=
  { soil_type := SoilType.clay, crop := "Rice", crop_stage := CropStage.vegetative
    moisture_pct := 5, temperature_c := 32, rainfall_forecast_mm := 50
    rainfall_probability_pct := 90, nitrogen := 50, phosphorus := 30
    potassium := 40, ph := 7 }

theorem C1_heavy_rain_witness :
    (RuleEvaluator.evaluate defaultRuleConfig fvHeavyRain).irrigation_required = false ∧
    (RuleEvaluator.evaluate defaultRuleConfig fvHeavyRain).severity = Severity.advisory ∧
    (RuleEvaluator.evaluate defaultRuleConfig fvHeavyRain).reasons =
      ["heavy rain forecast — irrigation delayed"] :=
  C1_heavy_rain_short_circuits defaultRuleConfig fvHeavyRain (by decide)

/-- C4: with rainfall_forecast_mm ≤ 40 and moisture between 30 and 60
inclusive, the optimal branch fires: no irrigation, zero water, severity
none — in particular the boundary values 30 and 60 land here because only
strict inequalities trigger the dry and wet extremes. -/
theorem C4_optimal_branch (cfg : RuleConfig) (fv : FeatureVector)
    (hr : fv.rainfall_forecast_mm ≤ 40)
    (h1 : 30 ≤ fv.moisture_pct) (h2 : fv.moisture_pct ≤ 60) :
    (RuleEvaluator.evaluate cfg fv).irrigation_required = false ∧
    (RuleEvaluator.evaluate cfg fv).water_mm = 0 ∧
    (RuleEvaluator.evaluate cfg fv).severity = Severity.none := by
  have hr' : ¬ 40 < fv.rainfall_forecast_mm := not_lt.mpr hr
  have h1' : ¬ fv.moisture_pct < 30 := not_lt.mpr h1
  have h2' : ¬ 60 < fv.moisture_pct := not_lt.mpr h2
  simp only [RuleEvaluator.evaluate, if_neg hr', if_neg h1', if_neg h2']
  split <;> exact ⟨rfl, rfl, rfl⟩

/-- A concrete feature vector sitting exactly on the moisture-30 boundary. -/
def fvBoundary30 : FeatureVector :=
  { soil_type := SoilType.loam, crop := "Wheat", crop_stage := CropStage.flowering
    moisture_pct := 30, temperature_c := 25, rainfall_forecast_mm := 40
    rainfall_probability_pct := 30, nitrogen := 20, phosphorus := 10
    potassium := 15, ph := 6 }

theorem C4_optimal_witness :
    (RuleEvaluator.evaluate defaultRuleConfig fvBoundary30).irrigation_required = false ∧
    (RuleEvaluator.evaluate defaultRuleConfig fvBoundary30).water_mm = 0 ∧
    (RuleEvaluator.evaluate defaultRuleConfig fvBoundary30).severity = Severity.none :=
  C4_optimal_branch defaultRuleConfig fvBoundary30 (by decide) (by decide) (by decide)

/-- C3: with an absent classifier, arbitration (a total function — it cannot
fail) mirrors the RuleDecision verbatim, with source rule, agreement
rule_only, and confidence 1 for critical/advisory severity, 0.7
otherwise. -/
theorem C3_absent_classifier_mirrors (rd : RuleDecision) :
    (DecisionArbiter.arbitrate rd Option.none).irrigation_required = rd.irrigation_required ∧
    (DecisionArbiter.arbitrate rd Option.none).water_mm = rd.water_mm ∧
    (DecisionArbiter.arbitrate rd Option.none).duration_hours = rd.duration_hours ∧
    (DecisionArbiter.arbitrate rd Option.none).explanation = rd.reasons ∧
    (DecisionArbiter.arbitrate rd Option.none).source = Source.rule ∧
    (DecisionArbiter.arbitrate rd Option.none).agreement = Agreement.rule_only ∧
    (DecisionArbiter.arbitrate rd Option.none).confidence =
      (if rd.severity = Severity.critical ∨ rd.severity = Severity.advisory
        then 1 else 7 / 10) := by
  simp [DecisionArbiter.arbitrate]

/-- C2: in every disagreement between rule and classifier, safety-first
precedence resolves it — rule-required wins outright; rule-not-required is
overridden exactly when the classifier is confident (≥ 0.8); the label is
disagreement_resolved and confidence never exceeds 0.6. -/
theorem C2_disagreement_resolution (rd : RuleDecision) (c : ClassifierResult)
    (h : rd.irrigation_required ≠ c.irrigation_required) :
    (rd.irrigation_required = true →
      (DecisionArbiter.arbitrate rd (Option.some c)).irrigation_required = true) ∧
    (rd.irrigation_required = false → 4 / 5 ≤ c.confidence →
      (DecisionArbiter.arbitrate rd (Option.some c)).irrigation_required = true) ∧
    (rd.irrigation_required = false → c.confidence < 4 / 5 →
      (DecisionArbiter.arbitrate rd (Option.some c)).irrigation_required = false) ∧
    (DecisionArbiter.arbitrate rd (Option.some c)).agreement =
      Agreement.disagreement_resolved ∧
    (DecisionArbiter.arbitrate rd (Option.some c)).confidence ≤ 3 / 5 := by
  refine ⟨?_, ?_, ?_, ?_, ?_⟩
  · intro hr
    have hcb : c.irrigation_required = false := by
      cases hcb : c.irrigation_required
      · rfl
      · exact absurd (hr.trans hcb.symm) h
    simp [DecisionArbiter.arbitrate, if_neg h, hr, hcb]
  · intro hr hc
    have hcb : c.irrigation_required = true := by
      cases hcb : c.irrigation_required
      · exact absurd (hr.trans hcb.symm) h
      · rfl
    simp [DecisionArbiter.arbitrate, if_neg h, hr, hcb, hc]
  · intro hr hc
    have hcb : c.irrigation_required = true := by
      cases hcb : c.irrigation_required
      · exact absurd (hr.trans hcb.symm) h
      · rfl
    simp [DecisionArbiter.arbitrate, if_neg h, hr, hcb, not_le.mpr hc]
  · simp [DecisionArbiter.arbitrate, if_neg h]
  · simp only [DecisionArbiter.arbitrate, if_neg h]
    exact min_le_right _ _

/-- The rule decision of the spec's disagreement example: no irrigation. -/
def rdNoIrrigation : RuleDecision :=
  { irrigation_required := false, water_mm := 0, duration_hours := 0
    reasons := ["moisture within optimal range."], severity := Severity.none }

/-- The classifier result of the spec's disagreement example: irrigation
required at confidence 0.85. -/
def crConfidentYes : ClassifierResult :=
  { irrigation_required := true, confidence := 17 / 20, probability_yes := 17 / 20
    top_factors := [("moisture", 6463 / 10000)] }

theorem C2_disagreement_witness :
    (DecisionArbiter.arbitrate rdNoIrrigation (Option.some crConfidentYes)).irrigation_required
      = true ∧
    (DecisionArbiter.arbitrate rdNoIrrigation (Option.some crConfidentYes)).agreement =
      Agreement.disagreement_resolved ∧
    (DecisionArbiter.arbitrate rdNoIrrigation (Option.some crConfidentYes)).confidence
      ≤ 3 / 5 := by
  have h := C2_disagreement_resolution rdNoIrrigation crConfidentYes (by decide)
  exact ⟨h.2.1 (by decide) (by norm_num [crConfidentYes]), h.2.2.2.1, h.2.2.2.2⟩

/-- C5: holding every other field fixed, with both moisture values below 30
and no heavy-rain forecast, lowering moisture_pct never lowers the computed
water_mm (the deficit factor (30 − m)/30 grows as m falls, and the
nonnegative base requirement and temperature multiplier preserve the
ordering through the clamp at 0). -/
theorem C5_water_monotone_in_moisture (cfg : RuleConfig) (fv1 fv2 : FeatureVector)
    (hsoil : fv1.soil_type = fv2.soil_type) (hcrop : fv1.crop = fv2.crop)
    (hstage : fv1.crop_stage = fv2.crop_stage)
    (htemp : fv1.temperature_c = fv2.temperature_c)
    (hrf : fv1.rainfall_forecast_mm = fv2.rainfall_forecast_mm)
    (hrp : fv1.rainfall_probability_pct = fv2.rainfall_probability_pct)
    (hn : fv1.nitrogen = fv2.nitrogen) (hp : fv1.phosphorus = fv2.phosphorus)
    (hk : fv1.potassium = fv2.potassium) (hph : fv1.ph = fv2.ph)
    (hm1 : fv1.moisture_pct < 30) (hm2 : fv2.moisture_pct < 30)
    (hrain : fv1.rainfall_forecast_mm ≤ 40)
    (hbase : 0 ≤ cfg.base_requirement fv1.crop fv1.crop_stage)
    (hle : fv1.moisture_pct ≤ fv2.moisture_pct) :
    (RuleEvaluator.evaluate cfg fv2).water_mm ≤
      (RuleEvaluator.evaluate cfg fv1).water_mm := by
  have hr1 : ¬ 40 < fv1.rainfall_forecast_mm := not_lt.mpr hrain
  have hr2 : ¬ 40 < fv2.rainfall_forecast_mm := by rw [← hrf]; exact hr1
  rw [evaluate_water_mm_dry cfg fv1 hr1 hm1, evaluate_water_mm_dry cfg fv2 hr2 hm2]
  rw [← hcrop, ← hstage, ← htemp]
  apply max_le_max _ le_rfl
  apply mul_le_mul_of_nonneg_right _ (tempMultiplier_nonneg _)
  apply mul_le_mul_of_nonneg_left _ hbase
  have h30 : (0 : ℚ) < 30 := by norm_num
  exact (div_le_div_iff_of_pos_right h30).mpr (by linarith)

/-- A dry feature vector at 20 % moisture (README Scenario 1 but drier). -/
def fvDry20 : FeatureVector :=
  { soil_type := SoilType.clay, crop := "Rice", crop_stage := CropStage.vegetative
    moisture_pct := 20, temperature_c := 32, rainfall_forecast_mm := 10
    rainfall_probability_pct := 10, nitrogen := 50, phosphorus := 30
    potassium := 40, ph := 7 }

/-- The same field conditions at 25 % moisture. -/
def fvDry25 : FeatureVector :=
  { fvDry20 with moisture_pct := 25 }

theorem C5_water_monotone_witness :
    (RuleEvaluator.evaluate defaultRuleConfig fvDry25).water_mm ≤
      (RuleEvaluator.evaluate defaultRuleConfig fvDry20).water_mm :=
  C5_water_monotone_in_moisture defaultRuleConfig fvDry20 fvDry25
    rfl rfl rfl rfl rfl rfl rfl rfl rfl rfl
    (by norm_num [fvDry20]) (by norm_num [fvDry25, fvDry20])
    (by norm_num [fvDry20]) (by norm_num [defaultRuleConfig])
    (by norm_num [fvDry20, fvDry25])

section ClassifierFacts

/-- Permuted factor lists have equal weight sums. -/
lemma sumWeights_of_perm {l1 l2 : List (String × ℚ)} (h : l1.Perm l2) :
    sumWeights l1 = sumWeights l2 :=
  (h.map Prod.snd).sum_eq

/-- Truncating a factor list with nonnegative weights cannot raise the
weight sum. -/
lemma sumWeights_take_le (l : List (String × ℚ)) (h : ∀ x ∈ l, 0 ≤ x.2)
    (n : Nat) : sumWeights (l.take n) ≤ sumWeights l := by
  unfold sumWeights
  conv_rhs => rw [← List.take_append_drop n l]
  rw [List.map_append, List.sum_append]
  have h0 : 0 ≤ ((l.drop n).map Prod.snd).sum := by
    apply List.sum_nonneg
    intro x hx
    obtain ⟨a, ha, rfl⟩ := List.mem_map.mp hx
    exact h a (List.mem_of_mem_drop ha)
  linarith

end ClassifierFacts

/-- C6: a successful predict call returns confidence = max(p, 1 − p), the
model's feature importances stably sorted by descending weight and
truncated to at most 3 entries, and a retained weight sum no larger than
the total importance sum. -/
theorem C6_predict_top_factors (cfg : AdapterConfig) (fv : FeatureVector)
    (cap : PredictionCapability)
    (hcap : cfg.capability = Option.some cap)
    (hp0 : 0 ≤ cap.predict_proba (normalizeFeatures cfg.norms (encodeFeatures fv)))
    (hp1 : cap.predict_proba (normalizeFeatures cfg.norms (encodeFeatures fv)) ≤ 1)
    (hw : ∀ x ∈ cap.feature_importances, 0 ≤ x.2) :
    ∃ res, ClassifierAdapter.predict cfg fv = Except.ok res ∧
      res.confidence =
        max (cap.predict_proba (normalizeFeatures cfg.norms (encodeFeatures fv)))
          (1 - cap.predict_proba (normalizeFeatures cfg.norms (encodeFeatures fv))) ∧
      res.top_factors =
        (List.insertionSort byWeightDesc cap.feature_importances).take 3 ∧
      res.top_factors.length ≤ 3 ∧
      List.Sorted byWeightDesc res.top_factors ∧
      sumWeights res.top_factors ≤ sumWeights cap.feature_importances := by
  have hok : ¬ (cap.predict_proba (normalizeFeatures cfg.norms (encodeFeatures fv)) < 0 ∨
      1 < cap.predict_proba (normalizeFeatures cfg.norms (encodeFeatures fv))) := by
    push_neg
    exact ⟨hp0, hp1⟩
  have hpred : ClassifierAdapter.predict cfg fv = Except.ok
      { irrigation_required :=
          decide ((1 : ℚ) / 2 ≤ cap.predict_proba (normalizeFeatures cfg.norms (encodeFeatures fv)))
        confidence :=
          max (cap.predict_proba (normalizeFeatures cfg.norms (encodeFeatures fv)))
            (1 - cap.predict_proba (normalizeFeatures cfg.norms (encodeFeatures fv)))
        probability_yes := cap.predict_proba (normalizeFeatures cfg.norms (encodeFeatures fv))
        top_factors :=
          (List.insertionSort byWeightDesc cap.feature_importances).take 3 } := by
    unfold ClassifierAdapter.predict
    rw [hcap]
    simp only [if_neg hok]
  refine ⟨_, hpred, rfl, rfl, ?_, ?_, ?_⟩
  · exact le_trans (List.length_take_le 3 _) le_rfl
  · exact List.Pairwise.sublist (List.take_sublist 3 _)
      (List.sorted_insertionSort byWeightDesc cap.feature_importances)
  · calc sumWeights ((List.insertionSort byWeightDesc cap.feature_importances).take 3)
        ≤ sumWeights (List.insertionSort byWeightDesc cap.feature_importances) := by
          apply sumWeights_take_le
          intro x hx
          exact hw x ((List.perm_insertionSort byWeightDesc
            cap.feature_importances).mem_iff.mp hx)
      _ = sumWeights cap.feature_importances :=
          sumWeights_of_perm (List.perm_insertionSort byWeightDesc cap.feature_importances)

/-- A concrete injected capability with the documented feature importances
(DASHBOARD_README) and a constant 0.7 probability. -/
def capExample : PredictionCapability :=
  { predict_proba := fun _ => 7 / 10
    feature_importances :=
      [("moisture", 6463 / 10000), ("temperature", 868 / 10000),
       ("rainfall_prob", 717 / 10000), ("crop_stage", 440 / 10000),
       ("nitrogen", 370 / 10000)] }

/-- A concrete adapter configuration around `capExample`. -/
def acfgExample : AdapterConfig :=
  { capability := Option.some capExample, norms := [] }

theorem C6_predict_witness :
    ∃ res, ClassifierAdapter.predict acfgExample fvDry20 = Except.ok res ∧
      res.confidence =
        max (capExample.predict_proba
          (normalizeFeatures acfgExample.norms (encodeFeatures fvDry20)))
          (1 - capExample.predict_proba
            (normalizeFeatures acfgExample.norms (encodeFeatures fvDry20))) ∧
      res.top_factors =
        (List.insertionSort byWeightDesc capExample.feature_importances).take 3 ∧
      res.top_factors.length ≤ 3 ∧
      List.Sorted byWeightDesc res.top_factors ∧
      sumWeights res.top_factors ≤ sumWeights capExample.feature_importances :=
  C6_predict_top_factors acfgExample fvDry20 capExample rfl
    (by norm_num [capExample]) (by norm_num [capExample])
    (by norm_num [capExample])

section PipelineFacts

/-- predict fails exactly when the capability is absent or its probability
leaves [0,1]. -/
lemma predict_error_iff (acfg : AdapterConfig) (fv : FeatureVector) :
    (∃ e, ClassifierAdapter.predict acfg fv = Except.error e) ↔
      acfg.capability = Option.none ∨
      ∃ cap, acfg.capability = Option.some cap ∧
        (cap.predict_proba (normalizeFeatures acfg.norms (encodeFeatures fv)) < 0 ∨
         1 < cap.predict_proba (normalizeFeatures acfg.norms (encodeFeatures fv))) := by
  unfold ClassifierAdapter.predict
  cases hc : acfg.capability with
  | none => simp
  | some cap =>
    simp only [hc, Option.some.injEq]
    constructor
    · rintro ⟨e, he⟩
      by_cases hbad :
        cap.predict_proba (normalizeFeatures acfg.norms (encodeFeatures fv)) < 0 ∨
          1 < cap.predict_proba (normalizeFeatures acfg.norms (encodeFeatures fv))
      · exact Or.inr ⟨cap, rfl, hbad⟩
      · rw [if_neg hbad] at he
        exact absurd he (by simp)
    · rintro (h | ⟨cap', hcap', hbad⟩)
      · exact absurd h (by simp)
      · subst hcap'
        exact ⟨ConfigurationError.probabilityOutOfRange _, by rw [if_pos hbad]⟩

/-- A runtime ConfigurationError on the classifier path aborts the engine
call; it is not converted into the absent-classifier mode. -/
lemma runEngine_propagates (rcfg : RuleConfig) (acfg : AdapterConfig)
    (fv : FeatureVector) (e : ConfigurationError)
    (he : ClassifierAdapter.predict acfg fv = Except.error e) :
    runEngine rcfg (Option.some acfg) fv = Except.error e := by
  simp only [runEngine, he]

/-- A successful engine call with a supplied classifier never reports the
rule_only degraded mode. -/
lemma runEngine_some_not_rule_only (rcfg : RuleConfig) (acfg : AdapterConfig)
    (fv : FeatureVector) (rec : Recommendation)
    (hok : runEngine rcfg (Option.some acfg) fv = Except.ok rec) :
    rec.agreement ≠ Agreement.rule_only := by
  simp only [runEngine] at hok
  cases hp : ClassifierAdapter.predict acfg fv with
  | error e =>
    rw [hp] at hok
    exact absurd hok (by simp)
  | ok cr =>
    rw [hp] at hok
    have hrec : rec = DecisionArbiter.arbitrate (RuleEvaluator.evaluate rcfg fv)
        (Option.some cr) := by
      injection hok with h
      exact h.symm
    subst hrec
    simp only [DecisionArbiter.arbitrate]
    split <;> simp

end PipelineFacts

/-- C7: predict raises ConfigurationError exactly when the injected
capability is absent or yields a probability outside [0,1]; such an error
aborts the engine call rather than being silently converted into the
absent-classifier mode, which is reachable only when the caller supplies no
classifier — and then always succeeds with agreement rule_only. -/
theorem C7_configuration_error_semantics (rcfg : RuleConfig)
    (acfg : AdapterConfig) (fv : FeatureVector) :
    ((∃ e, ClassifierAdapter.predict acfg fv = Except.error e) ↔
      acfg.capability = Option.none ∨
      ∃ cap, acfg.capability = Option.some cap ∧
        (cap.predict_proba (normalizeFeatures acfg.norms (encodeFeatures fv)) < 0 ∨
         1 < cap.predict_proba (normalizeFeatures acfg.norms (encodeFeatures fv)))) ∧
    (∀ e, ClassifierAdapter.predict acfg fv = Except.error e →
      runEngine rcfg (Option.some acfg) fv = Except.error e) ∧
    (∀ rec, runEngine rcfg (Option.some acfg) fv = Except.ok rec →
      rec.agreement ≠ Agreement.rule_only) ∧
    (∃ rec, runEngine rcfg Option.none fv = Except.ok rec ∧
      rec.agreement = Agreement.rule_only) := by
  refine ⟨predict_error_iff acfg fv,
    fun e he => runEngine_propagates rcfg acfg fv e he,
    fun rec hok => runEngine_some_not_rule_only rcfg acfg fv rec hok,
    ⟨_, rfl, rfl⟩⟩

/-- An adapter configuration whose capability is absent. -/
def acfgMissing : AdapterConfig := { capability := Option.none, norms := [] }

theorem C7_configuration_error_witness :
    (∃ e, ClassifierAdapter.predict acfgMissing fvDry20 = Except.error e) ∧
    runEngine defaultRuleConfig (Option.some acfgMissing) fvDry20 =
      Except.error ConfigurationError.missingCapability ∧
    (∃ rec, runEngine defaultRuleConfig Option.none fvDry20 = Except.ok rec ∧
      rec.agreement = Agreement.rule_only) := by
  have h := C7_configuration_error_semantics defaultRuleConfig acfgMissing fvDry20
  refine ⟨h.1.mpr (Or.inl rfl), ?_, h.2.2.2⟩
  exact h.2.1 ConfigurationError.missingCapability rfl

section ValidationFacts

/-- A successfully constructed FeatureVector records exactly the raw inputs
of every numeric field (no silent clamping anywhere) and satisfies every
declared domain: percentages in [0,100], rainfall and nutrients
nonnegative, ph in [0,14]. -/
lemma mkFeatureVector_ok_sound (r : RawFeatureVector) (fv : FeatureVector)
    (h : mkFeatureVector r = Except.ok fv) :
    r.moisture_pct = Option.some fv.moisture_pct ∧
    r.temperature_c = Option.some fv.temperature_c ∧
    r.rainfall_forecast_mm = Option.some fv.rainfall_forecast_mm ∧
    r.rainfall_probability_pct = Option.some fv.rainfall_probability_pct ∧
    r.nitrogen = Option.some fv.nitrogen ∧
    r.phosphorus = Option.some fv.phosphorus ∧
    r.potassium = Option.some fv.potassium ∧
    r.ph = Option.some fv.ph ∧
    0 ≤ fv.moisture_pct ∧ fv.moisture_pct ≤ 100 ∧
    0 ≤ fv.rainfall_probability_pct ∧ fv.rainfall_probability_pct ≤ 100 ∧
    0 ≤ fv.rainfall_forecast_mm ∧
    0 ≤ fv.nitrogen ∧ 0 ≤ fv.phosphorus ∧ 0 ≤ fv.potassium ∧
    0 ≤ fv.ph ∧ fv.ph ≤ 14 := by
  unfold mkFeatureVector at h
  repeat' split at h
  any_goals exact Except.noConfusion h
  injection h with hfv
  subst hfv
  push_neg at *
  simp_all

end ValidationFacts

/-- C8: construction fails with ValidationError whenever a percentage field
leaves [0,100], the temperature/rainfall input is NaN, or any other field
leaves its declared domain (negative rainfall forecast or nutrient, ph
outside [0,14], NaN anywhere); the check happens at construction, so every
FeatureVector that does reach the evaluator satisfies every declared
domain — and a successful construction stores all raw inputs unchanged,
never clamped. -/
theorem C8_validation_fail_fast (r : RawFeatureVector) :
    ((r.moisture_pct = Option.none ∨
      (∃ m, r.moisture_pct = Option.some m ∧ (m < 0 ∨ 100 < m)) ∨
      r.rainfall_probability_pct = Option.none ∨
      (∃ p, r.rainfall_probability_pct = Option.some p ∧ (p < 0 ∨ 100 < p)) ∨
      r.temperature_c = Option.none ∨
      r.rainfall_forecast_mm = Option.none ∨
      (∃ x, r.rainfall_forecast_mm = Option.some x ∧ x < 0) ∨
      r.nitrogen = Option.none ∨
      (∃ x, r.nitrogen = Option.some x ∧ x < 0) ∨
      r.phosphorus = Option.none ∨
      (∃ x, r.phosphorus = Option.some x ∧ x < 0) ∨
      r.potassium = Option.none ∨
      (∃ x, r.potassium = Option.some x ∧ x < 0) ∨
      r.ph = Option.none ∨
      (∃ x, r.ph = Option.some x ∧ (x < 0 ∨ 14 < x))) →
      ∃ e, mkFeatureVector r = Except.error e) ∧
    (∀ fv, mkFeatureVector r = Except.ok fv →
      r.moisture_pct = Option.some fv.moisture_pct ∧
      r.temperature_c = Option.some fv.temperature_c ∧
      r.rainfall_forecast_mm = Option.some fv.rainfall_forecast_mm ∧
      r.rainfall_probability_pct = Option.some fv.rainfall_probability_pct ∧
      r.nitrogen = Option.some fv.nitrogen ∧
      r.phosphorus = Option.some fv.phosphorus ∧
      r.potassium = Option.some fv.potassium ∧
      r.ph = Option.some fv.ph ∧
      0 ≤ fv.moisture_pct ∧ fv.moisture_pct ≤ 100 ∧
      0 ≤ fv.rainfall_probability_pct ∧ fv.rainfall_probability_pct ≤ 100 ∧
      0 ≤ fv.rainfall_forecast_mm ∧
      0 ≤ fv.nitrogen ∧ 0 ≤ fv.phosphorus ∧ 0 ≤ fv.potassium ∧
      0 ≤ fv.ph ∧ fv.ph ≤ 14) := by
  constructor
  · intro hbad
    cases hmk : mkFeatureVector r with
    | error e => exact ⟨e, rfl⟩
    | ok fv =>
      exfalso
      obtain ⟨hm, ht, hrf, hrp, hni, hph2, hpo, hph, hb1, hb2, hb3, hb4,
        hb5, hb6, hb7, hb8, hb9, hb10⟩ := mkFeatureVector_ok_sound r fv hmk
      rcases hbad with h | ⟨m, hm', hb⟩ | h | ⟨p, hp', hb⟩ | h | h | ⟨x, hx, hb⟩ |
        h | ⟨x, hx, hb⟩ | h | ⟨x, hx, hb⟩ | h | ⟨x, hx, hb⟩ | h | ⟨x, hx, hb⟩
      · rw [h] at hm; exact Option.noConfusion hm
      · rw [hm'] at hm
        injection hm with hm
        subst hm
        rcases hb with hb | hb <;> linarith
      · rw [h] at hrp; exact Option.noConfusion hrp
      · rw [hp'] at hrp
        injection hrp with hrp
        subst hrp
        rcases hb with hb | hb <;> linarith
      · rw [h] at ht; exact Option.noConfusion ht
      · rw [h] at hrf; exact Option.noConfusion hrf
      · rw [hx] at hrf
        injection hrf with hrf
        subst hrf
        linarith
      · rw [h] at hni; exact Option.noConfusion hni
      · rw [hx] at hni
        injection hni with hni
        subst hni
        linarith
      · rw [h] at hph2; exact Option.noConfusion hph2
      · rw [hx] at hph2
        injection hph2 with hph2
        subst hph2
        linarith
      · rw [h] at hpo; exact Option.noConfusion hpo
      · rw [hx] at hpo
        injection hpo with hpo
        subst hpo
        linarith
      · rw [h] at hph; exact Option.noConfusion hph
      · rw [hx] at hph
        injection hph with hph
        subst hph
        rcases hb with hb | hb <;> linarith
  · intro fv h
    exact mkFeatureVector_ok_sound r fv h

/-- A raw input with moisture_pct = 150, the spec's own example of an
out-of-domain field. -/
def rawBadMoisture : RawFeatureVector :=
  { soil_type := SoilType.clay, crop := "Rice", crop_stage := CropStage.vegetative
    moisture_pct := Option.some 150, temperature_c := Option.some 30
    rainfall_forecast_mm := Option.some 0, rainfall_probability_pct := Option.some 0
    nitrogen := Option.some 0, phosphorus := Option.some 0
    potassium := Option.some 0, ph := Option.some 7 }

/-- A raw input whose only flaw is an out-of-domain ph of 20. -/
def rawBadPh : RawFeatureVector :=
  { rawBadMoisture with moisture_pct := Option.some 25, ph := Option.some 20 }

/-- A raw input whose only flaw is a negative nitrogen level. -/
def rawNegNitrogen : RawFeatureVector :=
  { rawBadMoisture with moisture_pct := Option.some 25, nitrogen := Option.some (-5) }

theorem C8_validation_witness :
    (∃ e, mkFeatureVector rawBadMoisture = Except.error e) ∧
    (∃ e, mkFeatureVector rawBadPh = Except.error e) ∧
    (∃ e, mkFeatureVector rawNegNitrogen = Except.error e) := by
  refine ⟨(C8_validation_fail_fast rawBadMoisture).1 ?_,
    (C8_validation_fail_fast rawBadPh).1 ?_,
    (C8_validation_fail_fast rawNegNitrogen).1 ?_⟩
  · exact Or.inr (Or.inl ⟨150, rfl, Or.inr (by norm_num)⟩)
  · repeat right
    exact ⟨20, rfl, Or.inr (by norm_num)⟩
  · right; right; right; right; right; right; right; right; left
    exact ⟨-5, rfl, by norm_num⟩

/-- C9: an input whose trimmed form is empty makes handleSendMessage return
without changing any state — no message appended, input not cleared, no bot
reply scheduled — and the send button is disabled for that input. -/
theorem C9_empty_input_noop (nowId : Nat) (nowTs text : String) (s : ChatState)
    (h : jsTrim text = "") :
    handleSendMessage nowId nowTs text s = (s, Option.none) ∧
    sendButtonDisabled { s with inputValue := text } = true := by
  constructor
  · simp [handleSendMessage, h]
  · simp [sendButtonDisabled, h]

/-- The widget's initial greeting message. -/
def greeting : Message :=
  { id := 1, type := MsgType.bot
    text := "Hi! I'm your agriculture assistant. How can I help you today?"
    timestamp := "2026-10-12T00:00:00.000Z" }

/-- A chat state holding the widget's greeting message. -/
def chatState0 : ChatState :=
  { messages := [greeting], inputValue := "   " }

theorem C9_empty_input_witness :
    handleSendMessage 2 "2026-10-12T00:00:01.000Z" "   " chatState0 =
      (chatState0, Option.none) ∧
    sendButtonDisabled { chatState0 with inputValue := "   " } = true :=
  C9_empty_input_noop 2 "2026-10-12T00:00:01.000Z" "   " chatState0 (by decide)

/-- C10: a non-blank input only appends — exactly one user message carrying
the trimmed text, the input is cleared, a bot reply embedding the same
trimmed text is scheduled and later appended after it, and the previously
stored messages survive unchanged as a prefix of the final list. -/
theorem C10_send_appends (nowId replyId : Nat) (nowTs replyTs text : String)
    (s : ChatState) (h : jsTrim text ≠ "") :
    (handleSendMessage nowId nowTs text s).1.messages =
      s.messages ++
        [{ id := nowId, type := MsgType.user, text := jsTrim text, timestamp := nowTs }] ∧
    (handleSendMessage nowId nowTs text s).2 = Option.some (jsTrim text) ∧
    (handleSendMessage nowId nowTs text s).1.inputValue = "" ∧
    (deliverBotReply replyId replyTs (jsTrim text)
        (handleSendMessage nowId nowTs text s).1).messages =
      s.messages ++
        [{ id := nowId, type := MsgType.user, text := jsTrim text, timestamp := nowTs },
         { id := replyId, type := MsgType.bot, text := botReplyText (jsTrim text),
           timestamp := replyTs }] ∧
    (deliverBotReply replyId replyTs (jsTrim text)
        (handleSendMessage nowId nowTs text s).1).messages.take s.messages.length =
      s.messages := by
  refine ⟨?_, ?_, ?_, ?_, ?_⟩
  · simp [handleSendMessage, h]
  · simp [handleSendMessage, h]
  · simp [handleSendMessage, h]
  · simp [handleSendMessage, deliverBotReply, h]
  · simp only [handleSendMessage, if_neg h, deliverBotReply, List.append_assoc]
    exact List.take_left s.messages _

theorem C10_send_appends_witness :
    (handleSendMessage 2 "t1" "  hello " chatState0).1.messages =
      chatState0.messages ++
        [{ id := 2, type := MsgType.user, text := "hello", timestamp := "t1" }] ∧
    (handleSendMessage 2 "t1" "  hello " chatState0).2 = Option.some "hello" ∧
    (handleSendMessage 2 "t1" "  hello " chatState0).1.inputValue = "" ∧
    (deliverBotReply 3 "t2" "hello"
        (handleSendMessage 2 "t1" "  hello " chatState0).1).messages =
      chatState0.messages ++
        [{ id := 2, type := MsgType.user, text := "hello", timestamp := "t1" },
         { id := 3, type := MsgType.bot, text := botReplyText "hello"
           timestamp := "t2" }] ∧
    (deliverBotReply 3 "t2" "hello"
        (handleSendMessage 2 "t1" "  hello " chatState0).1).messages.take
      chatState0.messages.length = chatState0.messages := by
  have e : jsTrim "  hello " = "hello" := by decide
  have h := C10_send_appends 2 3 "t1" "t2" "  hello " chatState0 (by decide)
  rw [e] at h
  exact h
